import Mathlib

/-!
Verification of the self-updating process supervisor of this repository.

The repository ships two bash entrypoints:

* an entrypoint embedded in `Dockerfile` (third document of the file): it
  spawns the application as a background child, then loops
  `while sleep "$POLL"` and, depending on `AUTOGIT_MODE`,
  - `update`: `git fetch --all -q || true; NEW="$(origin_head)"`, and when
    `NEW != PREV && NEW != "none"` it runs `git reset --hard "$NEW"`,
    `install_deps`, `kill -TERM $APP_PID; wait $APP_PID`, respawns the
    child and sets `PREV="$NEW"`;
  - `watch`: `NEW="$(current_head)"` and, when `NEW != PREV`, the same
    install / kill / wait / respawn / `PREV="$NEW"` sequence, with no
    fetch and no reset;

* `docker/git-entrypoint.sh`: `update_repo_once` runs a `flock`-guarded
  critical section (set-url, fetch, rev-parse of both heads, and on
  difference hard reset plus `install_reqs`, returning 1), the app is
  spawned once in the background, and a watcher subshell signals
  `kill -TERM` to the app whenever `update_repo_once` reports a change;
  the script ends in `wait "$APP_PID"`.

Every definition below is a shallow embedding of one of those script
fragments; commit identifiers and manifest digests are modelled as
`Option String`, `Option.none` standing for the script sentinels
(`"none"` from `current_head`/`origin_head`, a missing file, a failing
`git rev-parse`).
-/

namespace EntryDocker

/-- A commit identifier as observed by `current_head` / `origin_head` in the
Dockerfile entrypoint: `some c` is a commit hash, `none` is the `"none"`
sentinel printed when `git rev-parse` fails. -/
abbrev Head := Option String

/-- The mutable state of the Dockerfile entrypoint's polling loop together
with instrumentation counters.  `prev` is the shell variable `PREV`,
`localHead` the commit `HEAD` of the checkout points at, `trackingRef` the
local remote-tracking ref `origin/BRANCH` read by `origin_head`.  The
counters record how often the loop executed `git fetch`, `git reset --hard`,
`install_deps`, the `kill -TERM` that begins a restart, and the full
kill/wait/respawn restart sequence. -/
structure LoopState where
  prev : Head
  localHead : Head
  trackingRef : Head
  fetchCalls : Nat
  resets : Nat
  installCalls : Nat
  termSignals : Nat
  restarts : Nat
  deriving Repr, DecidableEq

/-- One `update`-mode tick of the Dockerfile entrypoint loop
(`git fetch --all -q || true; NEW="$(origin_head)"; if [[ "$NEW" != "$PREV"
&& "$NEW" != "none" ]]; then git reset --hard "$NEW"; install_deps;
kill -TERM $APP_PID; wait $APP_PID; respawn; PREV="$NEW"; fi`).
`fetchOk` tells whether the fetch succeeded; on success the tracking ref
becomes `remote`, on failure (`|| true`) it keeps its previous value.  The
hard reset of a just-fetched commit is modelled as succeeding, so on the
change branch `localHead` becomes the observed head. -/
def updateTick (fetchOk : Bool) (remote : Head) (s : LoopState) : LoopState :=
  let tr : Head := if fetchOk then remote else s.trackingRef
  if tr ≠ s.prev ∧ tr ≠ Option.none then
    { prev := tr
      localHead := tr
      trackingRef := tr
      fetchCalls := s.fetchCalls + 1
      resets := s.resets + 1
      installCalls := s.installCalls + 1
      termSignals := s.termSignals + 1
      restarts := s.restarts + 1 }
  else
    { s with trackingRef := tr, fetchCalls := s.fetchCalls + 1 }

/-- One `watch`-mode tick of the Dockerfile entrypoint loop
(`NEW="$(current_head)"; if [[ "$NEW" != "$PREV" ]]; then install_deps;
kill -TERM $APP_PID; wait $APP_PID; respawn; PREV="$NEW"; fi`).  `observed`
is the current local `HEAD`, possibly moved by an external actor; the
branch performs no fetch and no reset. -/
def watchTick (observed : Head) (s : LoopState) : LoopState :=
  if observed ≠ s.prev then
    { s with
      prev := observed
      localHead := observed
      installCalls := s.installCalls + 1
      termSignals := s.termSignals + 1
      restarts := s.restarts + 1 }
  else
    { s with localHead := observed }

/-- Run a sequence of `update`-mode ticks; each list entry is the pair of
that tick's fetch outcome and the remote head at that moment. -/
def runUpdate (obs : List (Bool × Head)) (s : LoopState) : LoopState :=
  obs.foldl (fun st o => updateTick o.1 o.2 st) s

/-- The restart sequence of the Dockerfile entrypoint
(`kill -TERM "$APP_PID" 2>/dev/null || true; wait "$APP_PID" 2>/dev/null
|| true`), viewed as the supervisor's termination procedure for the child.
`exitsAfterTerm` is the child's behaviour: `some t` when it exits `t` time
units after receiving `TERM`, `none` when it never exits.  The script sends
one `TERM` and then waits with no time bound; no forceful kill and no
grace period appear anywhere in the script, so `forceKills` is `0` and the
`wait` returns exactly when the child dies (`exitedConfirmedAt`). -/
structure TermResult where
  termSent : Bool
  forceKills : Nat
  exitedConfirmedAt : Option Nat
  deriving Repr, DecidableEq

/-- See `TermResult`: the embedding of `kill -TERM $APP_PID; wait $APP_PID`. -/
def terminateChild (exitsAfterTerm : Option Nat) : TermResult :=
  { termSent := true
    forceKills := 0
    exitedConfirmedAt := exitsAfterTerm }

/-- The `install_deps` function of the Dockerfile entrypoint
(`if [[ -f requirements.txt ]]; then pip install --no-cache-dir -r
requirements.txt >/dev/null 2>&1 || true; fi`).  Unlike
`git-entrypoint.sh`'s `install_reqs`, it computes no digest and persists
no marker file: whenever `requirements.txt` exists it runs `pip install`
(failures swallowed by `|| true`), every single time it is called.  The
function's only observable effect in the model is the count of pip runs,
which it increments exactly when the manifest file exists. -/
def install_deps (manifestExists : Bool) (pipRuns : Nat) : Nat :=
  if manifestExists then pipRuns + 1 else pipRuns

end EntryDocker

namespace EntryShell

/-- Persistent dependency-install state of `git-entrypoint.sh`: `reqHash` is
the content of the `.req.hash` marker file (`none` when the file does not
exist), `installRuns` counts executions of `pip install -r requirements.txt`
and `installFailures` those whose exit status was non-zero. -/
structure DepState where
  reqHash : Option String
  installRuns : Nat
  installFailures : Nat
  deriving Repr, DecidableEq

/-- The `install_reqs` function of `git-entrypoint.sh`.  `reqDigest` is the
sha256 digest of `requirements.txt` when that file exists (`none`
otherwise); `pipOk` is the exit status of the `pip install` run, when one
happens.  The guard is `[[ ! -f .req.hash ]] || [[ "$cur" != "$(cat
.req.hash)" ]]`, i.e. `reqHash ≠ some cur`.  Note the behavioural fact this
embedding preserves: `update_repo_once` — and through it `install_reqs` —
is only ever called from `update_repo_once || true` and from
`if update_repo_once; then`, contexts in which bash suppresses
`set -e`, so a failing `pip install` does not abort the function and the
following `echo -n "$cur" > .req.hash` still runs. -/
def install_reqs (reqDigest : Option String) (pipOk : Bool) (s : DepState) :
    DepState :=
  match reqDigest with
  | Option.none => s
  | some cur =>
    if s.reqHash ≠ some cur then
      { reqHash := some cur
        installRuns := s.installRuns + 1
        installFailures := s.installFailures + (if pipOk then 0 else 1) }
    else
      s

/-- Result of one call of `update_repo_once` in the already-cloned case
(`.git` exists): the new local `HEAD`, the new dependency state, the number
of `git reset --hard` executions in the call, and `changed`, true exactly
when the function took its `return 1` path (which the watcher subshell
turns into a `kill -TERM` of the app). -/
structure SyncResult where
  localHead : Option String
  dep : DepState
  resets : Nat
  changed : Bool
  deriving Repr, DecidableEq

/-- The `flock`-guarded body of `update_repo_once` in `git-entrypoint.sh`.
`fetchOk` is the outcome of `git fetch origin "$REPO_BRANCH" || true`: on
success the local tracking ref `origin/REPO_BRANCH` becomes `remoteHead`,
on failure it is left as `trackingRef`.  The two `rev-parse` reads use the
script's distinct sentinels: `LOCAL="$(git rev-parse HEAD || echo 0)"` and
`REMOTE="$(git rev-parse origin/$REPO_BRANCH || echo 1)"`.  On `LOCAL !=
REMOTE` the script runs `git reset --hard origin/$REPO_BRANCH || true`
(modelled as moving `HEAD` to the tracking ref when that ref exists, and as
the swallowed failure leaving `HEAD` alone otherwise), then `install_reqs`,
then `return 1`. -/
def update_repo_once (fetchOk : Bool) (remoteHead trackingRef : Option String)
    (localHead : Option String) (reqDigest : Option String) (pipOk : Bool)
    (dep : DepState) : SyncResult :=
  let tr : Option String := if fetchOk then remoteHead else trackingRef
  let LOCAL : String := localHead.getD "0"
  let REMOTE : String := tr.getD "1"
  if LOCAL ≠ REMOTE then
    { localHead := match tr with
        | some r => some r
        | Option.none => localHead
      dep := install_reqs reqDigest pipOk dep
      resets := 1
      changed := true }
  else
    { localHead := localHead, dep := dep, resets := 0, changed := false }

end EntryShell

namespace EntryShell

/-!
Interleaving model of two supervisor processes sharing one checkout
directory, each running the `flock`-guarded block of `update_repo_once`
(`{ flock 9; git remote set-url …; git fetch …; LOCAL=…; REMOTE=…; git
reset --hard …; install_reqs; } 9>/.gitpull.lock`).  Program counters:
0 = `flock 9` (blocks until the advisory lock on `/.gitpull.lock` is
free, then acquires it), 1 = `git remote set-url`, 2 = `git fetch`,
3 = the two `git rev-parse` reads, 4 = `git reset --hard`,
5 = `install_reqs`, 6 = leaving the brace group (the fd-9 close releases
the lock on every exit path, the early `return 1` included), 7 = done.
-/

/-- Joint state of the two processes: each program counter plus the holder
of the advisory lock (`none` when free). -/
structure LockSys where
  pc0 : Nat
  pc1 : Nat
  lock : Option (Fin 2)
  deriving Repr, DecidableEq

/-- Lock value after process `me` executes the instruction at `pc`, or
`none` when the process cannot step: `flock` (pc 0) is enabled only while
the lock is free and then acquires it, instructions 1–5 leave the lock
alone, leaving the block (pc 6) releases it, and a finished process
(pc 7) has nothing left to run. -/
def lockAfter (pc : Nat) (me : Fin 2) (lk : Option (Fin 2)) :
    Option (Option (Fin 2)) :=
  if pc = 0 then
    (if lk = Option.none then some (some me) else Option.none)
  else if pc ≤ 5 then
    some lk
  else if pc = 6 then
    some Option.none
  else
    Option.none

/-- One step of process 0, when enabled. -/
def step0 (s : LockSys) : Option LockSys :=
  match lockAfter s.pc0 0 s.lock with
  | Option.none => Option.none
  | some lk => some { pc0 := s.pc0 + 1, pc1 := s.pc1, lock := lk }

/-- One step of process 1, when enabled. -/
def step1 (s : LockSys) : Option LockSys :=
  match lockAfter s.pc1 1 s.lock with
  | Option.none => Option.none
  | some lk => some { pc0 := s.pc0, pc1 := s.pc1 + 1, lock := lk }

/-- Interleaving: one of the two processes takes an enabled step. -/
def LockStep (s t : LockSys) : Prop :=
  step0 s = some t ∨ step1 s = some t

/-- Both processes about to enter `update_repo_once`, lock free. -/
def lockInit : LockSys :=
  ⟨0, 0, Option.none⟩

/-- States reachable from `lockInit` by interleaved steps. -/
def Reach (s : LockSys) : Prop :=
  Relation.ReflTransGen LockStep lockInit s

/-- A program counter is inside the critical section after `flock`
succeeded and before the brace group was left. -/
def inCrit (pc : Nat) : Prop :=
  1 ≤ pc ∧ pc ≤ 6

instance (pc : Nat) : Decidable (inCrit pc) := by
  unfold inCrit
  infer_instance

/-- The mutual-exclusion invariant: a process inside the critical section
holds the lock. -/
def LockInv (s : LockSys) : Prop :=
  (inCrit s.pc0 → s.lock = some 0) ∧ (inCrit s.pc1 → s.lock = some 1)

/-!
Trace model of the supervised phase of `git-entrypoint.sh`: after
`update_repo_once || true`, the script runs `"$@" & APP_PID=$!`, writes
the pid file, starts the watcher subshell `( while true; do sleep
"$GIT_INTERVAL"; if update_repo_once; then :; else kill -TERM "$(cat
/tmp/app.pid …)"; fi; done ) &`, and finishes with `wait "$APP_PID"` —
under `set -e` the script's own exit status is the status `wait` returns.
The observable events of a run are watcher ticks, the child's death, and
the main shell's `wait` returning.
-/

/-- One observable event of a `git-entrypoint.sh` run: a watcher tick
(`changed` is true when its `update_repo_once` call returned non-zero),
the child process dying with an exit code, or the main shell's
`wait "$APP_PID"` returning. -/
inductive RunCmd
  | watcherTick (changed : Bool)
  | childExit (code : Nat)
  | waitReturn
  deriving Repr, DecidableEq

/-- Observable state of a `git-entrypoint.sh` run: whether the child is
alive, its exit code once dead, how many times `"$@" &` was executed,
how many `kill -TERM` signals the watcher sent, and the supervisor's own
exit code once `wait` returned and the script ended. -/
structure RunState where
  childAlive : Bool
  childCode : Option Nat
  spawns : Nat
  termSignals : Nat
  supCode : Option Nat
  deriving Repr, DecidableEq

/-- State right after `"$@" & APP_PID=$!`.  When the command cannot be
spawned at all, the forked child fails its exec and dies at once with
bash's command-not-found status 127. -/
def runInit (spawnOk : Bool) : RunState :=
  if spawnOk then ⟨true, Option.none, 1, 0, Option.none⟩
  else ⟨false, some 127, 1, 0, Option.none⟩

/-- Effect of one event.  A change-reporting watcher tick sends exactly one
`kill -TERM`; a tick without change sends nothing.  `wait` cannot return
while the child lives; once the child is dead it returns the child's
status, which `set -e` turns into the script's own exit code.  No event
executes `"$@" &` again: the script has no relaunch path. -/
def runStep (c : RunCmd) (s : RunState) : RunState :=
  match c with
  | RunCmd.watcherTick changed =>
    if changed then { s with termSignals := s.termSignals + 1 } else s
  | RunCmd.childExit code =>
    if s.childAlive then { s with childAlive := false, childCode := some code }
    else s
  | RunCmd.waitReturn =>
    if s.childAlive then s
    else { s with supCode := s.childCode }

/-- Run a sequence of events. -/
def runTrace (cmds : List RunCmd) (s : RunState) : RunState :=
  cmds.foldl (fun st c => runStep c st) s

/-- Whether an event is a watcher tick that reported a change (and hence
sent a `kill -TERM`). -/
def sendsTerm : RunCmd → Bool
  | RunCmd.watcherTick true => true
  | _ => false

end EntryShell

/-! ## Helper lemmas -/

namespace EntryDocker

/-- A tick whose observed remote-tracking head equals `PREV` takes the else
branch: no reset, no install, no restart; only the tracking ref and the
fetch counter move. -/
lemma updateTick_obs_eq_prev (fetchOk : Bool) (remote : Head) (s : LoopState)
    (h : (if fetchOk then remote else s.trackingRef) = s.prev) :
    updateTick fetchOk remote s =
      { s with trackingRef := s.prev, fetchCalls := s.fetchCalls + 1 } := by
  unfold updateTick
  simp only [h]
  simp

/-- A tick observing a present head different from `PREV` takes the change
branch. -/
lemma updateTick_obs_change (fetchOk : Bool) (remote : Head) (s : LoopState)
    (c : String) (h : (if fetchOk then remote else s.trackingRef) = some c)
    (hne : some c ≠ s.prev) :
    updateTick fetchOk remote s =
      ⟨some c, some c, some c, s.fetchCalls + 1, s.resets + 1,
        s.installCalls + 1, s.termSignals + 1, s.restarts + 1⟩ := by
  unfold updateTick
  simp only [h]
  rw [if_pos ⟨hne, by simp⟩]

/-- Over a run all of whose observations equal the invariant head `r`, a
loop that starts with `PREV = r` and tracking ref `r` keeps them and never
restarts, resets, installs, or signals. -/
lemma runUpdate_steady (obs : List (Bool × Head)) (r : Head) :
    ∀ s : LoopState, s.prev = r → s.trackingRef = r →
      (∀ p ∈ obs, p.2 = r) →
      (runUpdate obs s).prev = r ∧ (runUpdate obs s).trackingRef = r ∧
        (runUpdate obs s).restarts = s.restarts ∧
        (runUpdate obs s).termSignals = s.termSignals ∧
        (runUpdate obs s).resets = s.resets := by
  induction obs with
  | nil =>
    intro s h1 h2 _
    exact ⟨h1, h2, rfl, rfl, rfl⟩
  | cons p rest ih =>
    intro s h1 h2 hobs
    have hp : p.2 = r := hobs p (List.mem_cons_self p rest)
    have hobs' : (if p.1 then p.2 else s.trackingRef) = s.prev := by
      cases p.1 <;> simp [hp, h1, h2]
    have hstep := updateTick_obs_eq_prev p.1 p.2 s hobs'
    have : runUpdate (p :: rest) s = runUpdate rest (updateTick p.1 p.2 s) := rfl
    rw [this, hstep]
    exact ih _ (by simp [h1]) (by simp [h1]) (fun q hq => hobs q (List.mem_cons_of_mem p hq))

end EntryDocker

namespace EntryShell

/-- The mutual-exclusion invariant holds initially. -/
lemma lockInv_init : LockInv lockInit := by
  constructor <;> intro h <;> exact absurd h (by decide)

/-- One interleaved step preserves the mutual-exclusion invariant. -/
lemma lockInv_step {s t : LockSys} (hst : LockStep s t) (hinv : LockInv s) :
    LockInv t := by
  obtain ⟨h0, h1⟩ := hinv
  rcases hst with hi | hi
  · unfold step0 at hi
    cases hl : lockAfter s.pc0 0 s.lock with
    | none => rw [hl] at hi; cases hi
    | some lk =>
      rw [hl] at hi
      injection hi with hi
      subst hi
      unfold lockAfter at hl
      split_ifs at hl with hz hfree hle hsix
      · -- acquire: the lock was free, so the other process is not critical
        injection hl with hl
        subst hl
        refine ⟨fun _ => rfl, fun hc => ?_⟩
        exact absurd (h1 hc) (by rw [hfree]; decide)
      · -- plain instruction inside the critical section
        injection hl with hl
        subst hl
        have hcrit : inCrit s.pc0 := ⟨by omega, by omega⟩
        exact ⟨fun _ => h0 hcrit, h1⟩
      · -- release: leaving the block frees the lock
        injection hl with hl
        subst hl
        refine ⟨fun hc => absurd hc ?_, fun hc => ?_⟩
        · simp only [inCrit, not_and]
          omega
        · have e0 := h0 ⟨by omega, by omega⟩
          have e1 := h1 hc
          rw [e0] at e1
          exact absurd e1 (by decide)
  · unfold step1 at hi
    cases hl : lockAfter s.pc1 1 s.lock with
    | none => rw [hl] at hi; cases hi
    | some lk =>
      rw [hl] at hi
      injection hi with hi
      subst hi
      unfold lockAfter at hl
      split_ifs at hl with hz hfree hle hsix
      · injection hl with hl
        subst hl
        refine ⟨fun hc => ?_, fun _ => rfl⟩
        exact absurd (h0 hc) (by rw [hfree]; decide)
      · injection hl with hl
        subst hl
        have hcrit : inCrit s.pc1 := ⟨by omega, by omega⟩
        exact ⟨h0, fun _ => h1 hcrit⟩
      · injection hl with hl
        subst hl
        refine ⟨fun hc => ?_, fun hc => absurd hc ?_⟩
        · have e1 := h1 ⟨by omega, by omega⟩
          have e0 := h0 hc
          rw [e1] at e0
          exact absurd e0 (by decide)
        · simp only [inCrit, not_and]
          omega

/-- Every reachable joint state satisfies the mutual-exclusion invariant. -/
lemma reach_lockInv {s : LockSys} (h : Reach s) : LockInv s := by
  induction h with
  | refl => exact lockInv_init
  | tail _ hstep ih => exact lockInv_step hstep ih

end EntryShell


namespace EntryShell

/-- No event re-executes `"$@" &`: one step never changes the spawn count. -/
lemma runStep_spawns (c : RunCmd) (s : RunState) :
    (runStep c s).spawns = s.spawns := by
  cases c with
  | watcherTick b => by_cases hb : b = true <;> simp [runStep, hb]
  | childExit code => by_cases ha : s.childAlive = true <;> simp [runStep, ha]
  | waitReturn => by_cases ha : s.childAlive = true <;> simp [runStep, ha]

/-- No event sequence changes the spawn count. -/
lemma runTrace_spawns (cmds : List RunCmd) :
    ∀ s : RunState, (runTrace cmds s).spawns = s.spawns := by
  induction cmds with
  | nil => intro s; rfl
  | cons c rest ih =>
    intro s
    have h : runTrace (c :: rest) s = runTrace rest (runStep c s) := rfl
    rw [h, ih, runStep_spawns]

/-- A step sends a `kill -TERM` exactly when it is a watcher tick whose
`update_repo_once` reported a change. -/
lemma runStep_termSignals (c : RunCmd) (s : RunState) :
    (runStep c s).termSignals =
      s.termSignals + (if sendsTerm c then 1 else 0) := by
  cases c with
  | watcherTick b => cases b <;> simp [runStep, sendsTerm]
  | childExit code =>
    by_cases ha : s.childAlive = true <;> simp [runStep, sendsTerm, ha]
  | waitReturn =>
    by_cases ha : s.childAlive = true <;> simp [runStep, sendsTerm, ha]

/-- Along a run, the number of `kill -TERM` signals sent equals the number
of change-reporting watcher ticks. -/
lemma runTrace_termSignals (cmds : List RunCmd) :
    ∀ s : RunState,
      (runTrace cmds s).termSignals =
        s.termSignals + cmds.countP sendsTerm := by
  induction cmds with
  | nil => intro s; simp [runTrace]
  | cons c rest ih =>
    intro s
    have h : runTrace (c :: rest) s = runTrace rest (runStep c s) := rfl
    rw [h, ih, runStep_termSignals]
    cases hc : sendsTerm c <;> (simp [List.countP_cons, hc]; try omega)

/-- Soundness of the supervisor's exit code: once set, it is the exit code
of the already-dead child. -/
def RunInv (s : RunState) : Prop :=
  ∀ c, s.supCode = some c → s.childAlive = false ∧ s.childCode = some c

/-- The invariant holds right after the spawn. -/
lemma runInit_inv (ok : Bool) : RunInv (runInit ok) := by
  intro c hc
  cases ok <;> simp [runInit] at hc

/-- Every event preserves the exit-code invariant. -/
lemma runStep_inv (c : RunCmd) (s : RunState) (h : RunInv s) :
    RunInv (runStep c s) := by
  intro e he
  cases c with
  | watcherTick b =>
    by_cases hb : b = true
    · have hred : runStep (RunCmd.watcherTick b) s =
          { s with termSignals := s.termSignals + 1 } := by
        simp [runStep, hb]
      rw [hred] at he ⊢
      exact h e he
    · have hred : runStep (RunCmd.watcherTick b) s = s := by
        simp [runStep, hb]
      rw [hred] at he ⊢
      exact h e he
  | childExit code =>
    by_cases ha : s.childAlive = true
    · have hred : runStep (RunCmd.childExit code) s =
          { s with childAlive := false, childCode := some code } := by
        simp [runStep, ha]
      rw [hred] at he ⊢
      have he' : s.supCode = some e := he
      have hcontra := (h e he').1
      rw [ha] at hcontra
      exact absurd hcontra (by decide)
    · have hred : runStep (RunCmd.childExit code) s = s := by
        simp [runStep, ha]
      rw [hred] at he ⊢
      exact h e he
  | waitReturn =>
    by_cases ha : s.childAlive = true
    · have hred : runStep RunCmd.waitReturn s = s := by
        simp [runStep, ha]
      rw [hred] at he ⊢
      exact h e he
    · have hred : runStep RunCmd.waitReturn s =
          { s with supCode := s.childCode } := by
        simp [runStep, ha]
      rw [hred] at he ⊢
      have he' : s.childCode = some e := he
      exact ⟨by simpa using ha, he'⟩

/-- Every event sequence preserves the exit-code invariant. -/
lemma runTrace_inv (cmds : List RunCmd) :
    ∀ s : RunState, RunInv s → RunInv (runTrace cmds s) := by
  induction cmds with
  | nil => intro s h; exact h
  | cons c rest ih =>
    intro s h
    exact ih (runStep c s) (runStep_inv c s h)

/-- A watcher tick leaves the child and the supervisor exit code alone. -/
lemma runStep_watcher_fields (b : Bool) (s : RunState) :
    (runStep (RunCmd.watcherTick b) s).childAlive = s.childAlive ∧
      (runStep (RunCmd.watcherTick b) s).childCode = s.childCode ∧
      (runStep (RunCmd.watcherTick b) s).supCode = s.supCode := by
  cases b <;> simp [runStep]

/-- Any block of watcher ticks leaves the child and the supervisor exit
code alone. -/
lemma runTrace_watcher_fields (bs : List Bool) :
    ∀ s : RunState,
      (runTrace (bs.map RunCmd.watcherTick) s).childAlive = s.childAlive ∧
        (runTrace (bs.map RunCmd.watcherTick) s).childCode = s.childCode ∧
        (runTrace (bs.map RunCmd.watcherTick) s).supCode = s.supCode := by
  induction bs with
  | nil => intro s; exact ⟨rfl, rfl, rfl⟩
  | cons b rest ih =>
    intro s
    have h : runTrace ((b :: rest).map RunCmd.watcherTick) s =
        runTrace (rest.map RunCmd.watcherTick)
          (runStep (RunCmd.watcherTick b) s) := rfl
    rw [h]
    obtain ⟨e1, e2, e3⟩ := runStep_watcher_fields b s
    obtain ⟨f1, f2, f3⟩ := ih (runStep (RunCmd.watcherTick b) s)
    exact ⟨by rw [f1, e1], by rw [f2, e2], by rw [f3, e3]⟩

end EntryShell

namespace EntryShell

/-- Traces compose by concatenation. -/
lemma runTrace_append (xs ys : List RunCmd) (s : RunState) :
    runTrace (xs ++ ys) s = runTrace ys (runTrace xs s) :=
  List.foldl_append _ _ _ _

end EntryShell

/-! ## The claims -/

open EntryDocker EntryShell

/-- C1: in update mode, if the remote head changes from commit `a` to
commit `b` between two ticks and the fetch succeeds, the tick that
observes the change performs exactly one restart (one `kill -TERM`, one
respawn) and afterwards the local head equals `b`. -/
theorem update_remote_change_single_restart (s : LoopState) (a b : String)
    (hprev : s.prev = some a) (hab : a ≠ b) :
    ((updateTick true (some b) (updateTick true (some a) s)).restarts
        = s.restarts + 1)
    ∧ ((updateTick true (some b) (updateTick true (some a) s)).termSignals
        = s.termSignals + 1)
    ∧ ((updateTick true (some b) (updateTick true (some a) s)).localHead
        = some b)
    ∧ ((updateTick true (some b) (updateTick true (some a) s)).prev
        = some b) := by
  have h1 := updateTick_obs_eq_prev true (some a) s (by simp [hprev])
  rw [h1]
  have hne : some b ≠ s.prev := by
    rw [hprev]
    intro hcon
    exact hab (Option.some.inj hcon).symm
  have h2 := updateTick_obs_change true (some b)
    { s with trackingRef := s.prev, fetchCalls := s.fetchCalls + 1 } b
    (by simp) hne
  rw [h2]
  exact ⟨rfl, rfl, rfl, rfl⟩

/-- Witness for C1 at a concrete state: checkout at `aaa`, remote moves to
`bbb`. -/
theorem update_remote_change_single_restart_witness :
    (updateTick true (some "bbb") (updateTick true (some "aaa")
      ⟨some "aaa", some "aaa", some "aaa", 0, 0, 0, 0, 0⟩)).restarts
      = 0 + 1 :=
  (update_remote_change_single_restart
    ⟨some "aaa", some "aaa", some "aaa", 0, 0, 0, 0, 0⟩
    "aaa" "bbb" rfl (by decide)).1

/-- C2 counterexample: a one-tick sequence during which the remote head
never changes (it is constantly `bbb`), starting from a supervisor whose
checkout and `PREV` are at `aaa`.  The update loop restarts the child
once (and sends one `kill -TERM`), refuting the claim that such a
sequence restarts the child zero times: the loop's equality test also
fires on a stale initial checkout, not only on a remote-side change. -/
theorem update_constant_remote_restart_cex :
    (runUpdate [(true, some "bbb")]
      ⟨some "aaa", some "aaa", some "aaa", 0, 0, 0, 0, 0⟩).restarts = 1
    ∧ (runUpdate [(true, some "bbb")]
      ⟨some "aaa", some "aaa", some "aaa", 0, 0, 0, 0, 0⟩).termSignals = 1 := by
  decide

/-- C2 as amended: for every tick sequence during which the remote head
never changes from the head the supervisor starts in sync with (`PREV`
and the tracking ref equal the constant remote head `r`), the child is
restarted zero times and no termination signal is ever sent. -/
theorem update_steady_remote_zero_restarts (obs : List (Bool × Head))
    (s : LoopState) (r : Head) (hprev : s.prev = r)
    (htr : s.trackingRef = r) (hobs : ∀ p ∈ obs, p.2 = r) :
    (runUpdate obs s).restarts = s.restarts
    ∧ (runUpdate obs s).termSignals = s.termSignals := by
  obtain ⟨-, -, h1, h2, -⟩ := runUpdate_steady obs r s hprev htr hobs
  exact ⟨h1, h2⟩

/-- Witness for amended C2: two ticks (one of them a failed fetch) with
the remote constantly at `aaa`, starting in sync at `aaa`: no restart. -/
theorem update_steady_remote_zero_restarts_witness :
    (runUpdate [(true, some "aaa"), (false, some "aaa")]
      ⟨some "aaa", some "aaa", some "aaa", 0, 0, 0, 0, 0⟩).restarts = 0
    ∧ (runUpdate [(true, some "aaa"), (false, some "aaa")]
      ⟨some "aaa", some "aaa", some "aaa", 0, 0, 0, 0, 0⟩).termSignals = 0 :=
  update_steady_remote_zero_restarts _ _ (some "aaa") rfl rfl (by decide)

/-- C3 counterexample: the supervised child ignores `TERM` and never
exits.  The claim says that after the grace period a forceful kill is
issued exactly once; the code (`kill -TERM "$APP_PID"; wait "$APP_PID"`)
issues zero forceful kills — there is no grace bound and no `kill -9`
anywhere — and the `wait` never returns. -/
theorem terminate_no_force_kill_cex :
    (terminateChild Option.none).forceKills = 0
    ∧ (terminateChild Option.none).exitedConfirmedAt = Option.none :=
  ⟨rfl, rfl⟩

/-- C3 as amended: termination is one-step, not two-step.  A graceful
`TERM` is always sent (the graceful step is never skipped), no forceful
kill is ever issued, and the child is reported exited exactly when the
OS-level `wait` confirms its death — which may be never. -/
theorem terminate_graceful_only (behaviour : Option Nat) :
    (terminateChild behaviour).termSent = true
    ∧ (terminateChild behaviour).forceKills = 0
    ∧ (terminateChild behaviour).exitedConfirmedAt = behaviour :=
  ⟨rfl, rfl, rfl⟩

/-- C7 counterexample: an absent local head with a present remote head is
not a no-op in either entrypoint.  In the Dockerfile loop, `PREV = "none"`
and a fetched remote `bbb` satisfy `NEW != PREV && NEW != "none"`, so the
tick resets and restarts.  In `git-entrypoint.sh`, the sentinels are the
distinct strings `0` (local) and `1` (remote), so a failing local
`rev-parse` — and even both sides failing — compares unequal and takes
the change path (reset attempted, `return 1`, watcher kills the app). -/
theorem unknown_head_not_noop_cex :
    (updateTick true (some "bbb")
      ⟨Option.none, Option.none, Option.none, 0, 0, 0, 0, 0⟩).restarts = 1
    ∧ (updateTick true (some "bbb")
      ⟨Option.none, Option.none, Option.none, 0, 0, 0, 0, 0⟩).resets = 1
    ∧ (update_repo_once true (some "bbb") Option.none Option.none
        Option.none true ⟨Option.none, 0, 0⟩).changed = true
    ∧ (update_repo_once true Option.none Option.none Option.none
        Option.none true ⟨Option.none, 0, 0⟩).changed = true := by
  decide

/-- C7 as amended: a fetch failure is swallowed (`|| true`) and only when
the observed remote-tracking head is the absent sentinel is the update
tick a no-op — no reset, no restart, `PREV` and the local head intact.
An absent local head with a present remote head, by contrast, is treated
as a change. -/
theorem remote_absent_tick_noop (fetchOk : Bool) (remote : Head)
    (s : LoopState)
    (h : (if fetchOk then remote else s.trackingRef) = Option.none) :
    (updateTick fetchOk remote s).restarts = s.restarts
    ∧ (updateTick fetchOk remote s).resets = s.resets
    ∧ (updateTick fetchOk remote s).termSignals = s.termSignals
    ∧ (updateTick fetchOk remote s).prev = s.prev
    ∧ (updateTick fetchOk remote s).localHead = s.localHead := by
  unfold updateTick
  simp only [h]
  simp

/-- Witness for amended C7: the remote head is unfetchable (`origin_head`
prints `none`) while the checkout sits at `aaa`: the tick is a no-op. -/
theorem remote_absent_tick_noop_witness :
    (updateTick true Option.none
      ⟨some "aaa", some "aaa", some "aaa", 0, 0, 0, 0, 0⟩).restarts = 0
    ∧ (updateTick true Option.none
      ⟨some "aaa", some "aaa", some "aaa", 0, 0, 0, 0, 0⟩).resets = 0 :=
  ⟨(remote_absent_tick_noop true Option.none
      ⟨some "aaa", some "aaa", some "aaa", 0, 0, 0, 0, 0⟩ (by decide)).1,
   (remote_absent_tick_noop true Option.none
      ⟨some "aaa", some "aaa", some "aaa", 0, 0, 0, 0, 0⟩ (by decide)).2.1⟩

/-- C8: in watch mode no fetch and no reset is ever performed on any
tick; a tick that sees the local head moved by an external actor from `a`
to `b` detects the change purely by that local comparison, invokes the
dependency install check, performs exactly one restart, and records `b`
as the last-observed head. -/
theorem watch_mode_local_detection (s : LoopState) (a b : String)
    (hprev : s.prev = some a) (hab : a ≠ b) :
    (watchTick (some b) s).fetchCalls = s.fetchCalls
    ∧ (watchTick (some b) s).resets = s.resets
    ∧ (watchTick (some b) s).installCalls = s.installCalls + 1
    ∧ (watchTick (some b) s).restarts = s.restarts + 1
    ∧ (watchTick (some b) s).prev = some b
    ∧ ∀ observed : Head,
        (watchTick observed s).fetchCalls = s.fetchCalls
        ∧ (watchTick observed s).resets = s.resets := by
  have hne : some b ≠ s.prev := by
    rw [hprev]
    intro hcon
    exact hab (Option.some.inj hcon).symm
  have hred : watchTick (some b) s =
      { s with
        prev := some b
        localHead := some b
        installCalls := s.installCalls + 1
        termSignals := s.termSignals + 1
        restarts := s.restarts + 1 } := by
    unfold watchTick
    rw [if_pos hne]
  rw [hred]
  refine ⟨rfl, rfl, rfl, rfl, rfl, ?_⟩
  intro o
  unfold watchTick
  split
  · exact ⟨rfl, rfl⟩
  · exact ⟨rfl, rfl⟩

/-- Witness for C8 at the spec's scenario: local head moved externally
from `abc123` to `def456`, watch mode. -/
theorem watch_mode_local_detection_witness :
    (watchTick (some "def456")
      ⟨some "abc123", some "abc123", Option.none, 0, 0, 0, 0, 0⟩).restarts
      = 0 + 1
    ∧ (watchTick (some "def456")
      ⟨some "abc123", some "abc123", Option.none, 0, 0, 0, 0, 0⟩).fetchCalls
      = 0 :=
  ⟨(watch_mode_local_detection
      ⟨some "abc123", some "abc123", Option.none, 0, 0, 0, 0, 0⟩
      "abc123" "def456" rfl (by decide)).2.2.2.1,
   (watch_mode_local_detection
      ⟨some "abc123", some "abc123", Option.none, 0, 0, 0, 0, 0⟩
      "abc123" "def456" rfl (by decide)).1⟩

/-- C4: in every reachable interleaving of two supervisor processes
running the `flock`-guarded block of `update_repo_once` over the same
checkout, the two critical sections never overlap in time, and whenever a
process is about to execute the hard reset (program counter 4) it holds
the exclusive lock. -/
theorem lock_critical_sections_exclusive (s : LockSys) (h : Reach s) :
    ¬(inCrit s.pc0 ∧ inCrit s.pc1)
    ∧ (s.pc0 = 4 → s.lock = some 0)
    ∧ (s.pc1 = 4 → s.lock = some 1) := by
  obtain ⟨h0, h1⟩ := reach_lockInv h
  refine ⟨?_, ?_, ?_⟩
  · rintro ⟨c0, c1⟩
    have e0 := h0 c0
    have e1 := h1 c1
    rw [e0] at e1
    exact absurd e1 (by decide)
  · intro h4
    exact h0 (by rw [h4]; exact ⟨by omega, by omega⟩)
  · intro h4
    exact h1 (by rw [h4]; exact ⟨by omega, by omega⟩)

/-- Witness for C4 at a concrete reachable state: process 0 has acquired
the lock, fetched and read the heads, and is about to reset; it holds the
lock, and the joint state is not doubly critical. -/
theorem lock_critical_sections_exclusive_witness :
    ((⟨4, 0, some 0⟩ : LockSys).lock = some 0)
    ∧ ¬(inCrit (⟨4, 0, some 0⟩ : LockSys).pc0
        ∧ inCrit (⟨4, 0, some 0⟩ : LockSys).pc1) := by
  have s1 : LockStep ⟨0, 0, Option.none⟩ ⟨1, 0, some 0⟩ := Or.inl (by decide)
  have s2 : LockStep ⟨1, 0, some 0⟩ ⟨2, 0, some 0⟩ := Or.inl (by decide)
  have s3 : LockStep ⟨2, 0, some 0⟩ ⟨3, 0, some 0⟩ := Or.inl (by decide)
  have s4 : LockStep ⟨3, 0, some 0⟩ ⟨4, 0, some 0⟩ := Or.inl (by decide)
  have hr : Reach ⟨4, 0, some 0⟩ :=
    Relation.ReflTransGen.head s1 (Relation.ReflTransGen.head s2
      (Relation.ReflTransGen.head s3 (Relation.ReflTransGen.head s4
        Relation.ReflTransGen.refl)))
  exact ⟨(lock_critical_sections_exclusive _ hr).2.1 rfl,
    (lock_critical_sections_exclusive _ hr).1⟩

/-- C5 counterexample: the claim's citations include the Dockerfile
entrypoint's `install_deps`, which keeps no digest at all — its only
state is the run count, and it reads nothing but the existence of
`requirements.txt`.  Two consecutive calls with the manifest present and
unchanged run `pip install` twice, refuting both "the install runs iff
the manifest digest differs from the persisted digest" (there is no
persisted digest, and the install runs with the digest unchanged) and
"two consecutive calls with an unchanged manifest trigger installation
exactly once". -/
theorem install_deps_unconditional_cex :
    EntryDocker.install_deps true (EntryDocker.install_deps true 0) = 2 := by
  decide

/-- C5 as amended: the digest gate holds only for `git-entrypoint.sh`'s
`install_reqs` — there the install runs iff the sha256 digest of the
manifest differs from the persisted `.req.hash` digest (a missing marker
file counting as different), two consecutive calls with an unchanged
manifest trigger installation exactly once, and on a successful run the
persisted digest converges to the manifest digest.  The Dockerfile
entrypoint's `install_deps`, by contrast, persists no digest and runs
`pip install` on every call whenever `requirements.txt` exists, and is a
no-op exactly when the manifest file is missing. -/
theorem dependency_install_gate (s : DepState) (c : String)
    (ok1 ok2 : Bool) (n : Nat) :
    (s.reqHash ≠ some c →
        (install_reqs (some c) ok1 s).installRuns = s.installRuns + 1)
    ∧ (s.reqHash = some c → install_reqs (some c) ok1 s = s)
    ∧ (s.reqHash ≠ some c →
        (install_reqs (some c) ok2
          (install_reqs (some c) ok1 s)).installRuns = s.installRuns + 1)
    ∧ (install_reqs (some c) true s).reqHash = some c
    ∧ EntryDocker.install_deps true n = n + 1
    ∧ EntryDocker.install_deps false n = n := by
  refine ⟨?_, ?_, ?_, ?_, ?_, ?_⟩
  · intro h
    simp [install_reqs, h]
  · intro h
    simp [install_reqs, h]
  · intro h
    simp [install_reqs, h]
  · by_cases h : s.reqHash = some c <;> simp [install_reqs, h]
  · simp [EntryDocker.install_deps]
  · simp [EntryDocker.install_deps]

/-- Witness for amended C5: no `.req.hash` yet, manifest digest `d`, two
`install_reqs` calls: one install in total, digest converged; and one
`install_deps` call on an existing manifest: one more pip run. -/
theorem dependency_install_gate_witness :
    (install_reqs (some "d") true
      (install_reqs (some "d") true ⟨Option.none, 0, 0⟩)).installRuns
      = 0 + 1
    ∧ (install_reqs (some "d") true ⟨Option.none, 0, 0⟩).reqHash
      = some "d"
    ∧ EntryDocker.install_deps true 5 = 5 + 1 :=
  ⟨(dependency_install_gate ⟨Option.none, 0, 0⟩ "d" true true 5).2.2.1
      (by decide),
   (dependency_install_gate ⟨Option.none, 0, 0⟩ "d" true true 5).2.2.2.1,
   (dependency_install_gate ⟨Option.none, 0, 0⟩ "d" true true 5).2.2.2.2.1⟩

/-- C6: the claim matches the script's intent (`set -euo pipefail` is
meant to abort `install_reqs` between the failing `pip install` and the
`echo -n "$cur" > .req.hash`), but `update_repo_once` is only ever called
as `update_repo_once || true` and `if update_repo_once`, contexts in
which bash disables `errexit` for the whole call; so when the install
command exits non-zero the persisted digest IS advanced (here from `h0`
to `h1`, so the next tick does not retry), no warning is logged anywhere
in the script, while — as the claim says — the change path still returns
1 and the restart proceeds.  Evaluated at the failing input: local head
`aaa`, fetched remote `bbb`, manifest digest `h1`, stored digest `h0`,
`pip install` failing. -/
theorem install_failure_advances_digest :
    (update_repo_once true (some "bbb") (some "aaa") (some "aaa")
        (some "h1") false ⟨some "h0", 3, 0⟩).dep.reqHash = some "h1"
    ∧ (update_repo_once true (some "bbb") (some "aaa") (some "aaa")
        (some "h1") false ⟨some "h0", 3, 0⟩).dep.installRuns = 4
    ∧ (update_repo_once true (some "bbb") (some "aaa") (some "aaa")
        (some "h1") false ⟨some "h0", 3, 0⟩).dep.installFailures = 1
    ∧ (update_repo_once true (some "bbb") (some "aaa") (some "aaa")
        (some "h1") false ⟨some "h0", 3, 0⟩).changed = true
    ∧ (update_repo_once true (some "bbb") (some "aaa") (some "aaa")
        (some "h1") false ⟨some "h0", 3, 0⟩).localHead = some "bbb" := by
  decide

/-- C9: for the shell entrypoint, the supervisor's own exit code is the
child's exit code when the child exits normally (the final
`wait "$APP_PID"` status, for any number of preceding watcher ticks), and
is the non-zero command-not-found status 127 when the child could not be
spawned at all. -/
theorem shell_exit_code_propagation (ticks : List Bool) (c : Nat) :
    (runTrace (ticks.map RunCmd.watcherTick ++
        [RunCmd.childExit c, RunCmd.waitReturn])
      (runInit true)).supCode = some c
    ∧ (runTrace [RunCmd.waitReturn] (runInit false)).supCode = some 127
    ∧ (127 : Nat) ≠ 0 := by
  refine ⟨?_, by decide, by decide⟩
  rw [runTrace_append]
  obtain ⟨halive, -, -⟩ := runTrace_watcher_fields ticks (runInit true)
  have halive' : (runTrace (ticks.map RunCmd.watcherTick)
      (runInit true)).childAlive = true := by
    rw [halive]
    rfl
  have h1 : runStep (RunCmd.childExit c)
      (runTrace (ticks.map RunCmd.watcherTick) (runInit true)) =
      { runTrace (ticks.map RunCmd.watcherTick) (runInit true) with
        childAlive := false
        childCode := some c } := by
    simp [runStep, halive']
  have h2 : runTrace [RunCmd.childExit c, RunCmd.waitReturn]
      (runTrace (ticks.map RunCmd.watcherTick) (runInit true)) =
      runStep RunCmd.waitReturn (runStep (RunCmd.childExit c)
        (runTrace (ticks.map RunCmd.watcherTick) (runInit true))) := rfl
  rw [h2, h1]
  simp [runStep]

/-- C10: in the shell entrypoint, `"$@" &` is executed exactly once in
every run — a change only makes the watcher send `kill -TERM`
(`termSignals` counts exactly the change-reporting ticks), and whenever
the supervisor has an exit code the child is already dead with that same
code (the final `wait` returned); the relaunch of the application is
never performed in-process. -/
theorem shell_watcher_term_then_exit (spawnOk : Bool) (cmds : List RunCmd) :
    (runTrace cmds (runInit spawnOk)).spawns = 1
    ∧ (runTrace cmds (runInit spawnOk)).termSignals = cmds.countP sendsTerm
    ∧ ∀ c, (runTrace cmds (runInit spawnOk)).supCode = some c →
        (runTrace cmds (runInit spawnOk)).childAlive = false
        ∧ (runTrace cmds (runInit spawnOk)).childCode = some c := by
  refine ⟨?_, ?_, ?_⟩
  · rw [runTrace_spawns]
    cases spawnOk <;> rfl
  · rw [runTrace_termSignals]
    cases spawnOk <;> simp [runInit]
  · exact runTrace_inv cmds (runInit spawnOk) (runInit_inv spawnOk)

/-- Witness for C10: a run in which the watcher detects a change, TERMs
the child, the child dies with status 143 and `wait` returns: the
supervisor reports the child dead with that code, after exactly one
spawn and one signal. -/
theorem shell_watcher_term_then_exit_witness :
    (runTrace [RunCmd.watcherTick true, RunCmd.childExit 143,
        RunCmd.waitReturn] (runInit true)).childAlive = false
    ∧ (runTrace [RunCmd.watcherTick true, RunCmd.childExit 143,
        RunCmd.waitReturn] (runInit true)).childCode = some 143
    ∧ (runTrace [RunCmd.watcherTick true, RunCmd.childExit 143,
        RunCmd.waitReturn] (runInit true)).spawns = 1 :=
  ⟨((shell_watcher_term_then_exit true [RunCmd.watcherTick true,
      RunCmd.childExit 143, RunCmd.waitReturn]).2.2 143 (by decide)).1,
   ((shell_watcher_term_then_exit true [RunCmd.watcherTick true,
      RunCmd.childExit 143, RunCmd.waitReturn]).2.2 143 (by decide)).2,
   (shell_watcher_term_then_exit true [RunCmd.watcherTick true,
      RunCmd.childExit 143, RunCmd.waitReturn]).1⟩
